import Mathlib

/-!
Verification development for the ASRE Pro v2.1 stock rating engine.

The engine (frontend scoring pipeline, `handleSearch` and its helper
functions) is shallowly embedded over `ℚ`: every JavaScript numeric
operation used by the engine is exact rational arithmetic except
`Math.sqrt`, which is modelled as an explicit function parameter
`jsSqrt : ℚ → ℚ`; every theorem quantifies over (or instantiates) that
parameter, so each proved property holds for any interpretation of the
square root, in particular the real one.  JavaScript `null`/absent
fields are `Option ℚ`, JavaScript truthiness of a number (`x` is falsy
iff it is `0`) is the `truthy` predicate, and `a || b` coalescing is
`jsOr`/`jsOrVal`.  `Math.round` (round half toward positive infinity)
is `jsRound`.
-/

namespace ASRE

/-- `Math.max(a, b)` on two (non-NaN) numbers. -/
def jsMax (a b : ℚ) : ℚ := if a < b then b else a

/-- `Math.min(a, b)` on two (non-NaN) numbers. -/
def jsMin (a b : ℚ) : ℚ := if a < b then a else b

/-- `Math.max(0, Math.min(1, x))`, the clamp to `[0,1]` used throughout the engine. -/
def clamp01 (x : ℚ) : ℚ := jsMax 0 (jsMin 1 x)

/-- Embeds `normalize(x, min, max)`: returns `0.5` on a degenerate range,
otherwise clamps `(x - min) / (max - min)` to `[0,1]`. -/
def normalize (x mn mx : ℚ) : ℚ :=
  if mx = mn then 1/2 else clamp01 ((x - mn) / (mx - mn))

/-- JavaScript truthiness of a nullable number: `null` and `0` are falsy. -/
def truthy : Option ℚ → Bool
  | none => false
  | some v => decide (v ≠ 0)

/-- JavaScript `a || b` on nullable numbers: yields `a` when truthy, else `b`. -/
def jsOr (a b : Option ℚ) : Option ℚ := if truthy a then a else b

/-- JavaScript `a || d` where the final fallback `d` is a plain number
(as in `statistics.beta || summaryDetail.beta || 1`). -/
def jsOrVal (a : Option ℚ) (d : ℚ) : ℚ :=
  match a with
  | some v => if v ≠ 0 then v else d
  | none => d

/-- `Math.round`: rounds half toward positive infinity for every real input. -/
def jsRound (q : ℚ) : ℤ := ⌊q + 1/2⌋

/-- Embeds `std(arr)`: sample standard deviation with the `(arr.length - 1 || 1)`
guard; `Math.sqrt` is the explicit parameter `jsSqrt`. -/
def std (jsSqrt : ℚ → ℚ) (arr : List ℚ) : ℚ :=
  let mean := arr.sum / (arr.length : ℚ)
  let d : ℤ := (arr.length : ℤ) - 1
  let variance := (arr.map (fun b => (b - mean) ^ 2)).sum / ((if d = 0 then 1 else d : ℤ) : ℚ)
  jsSqrt variance

/-- Embeds `calculateEMA(data, period)`: seed at `data[0]`, then
`ema = data[i]*k + ema*(1-k)` with `k = 2/(period+1)`.  (On the empty
list the source would produce `[NaN]`; it is only ever called on lists
of length at least 26, where this definition matches it exactly.) -/
def calculateEMA (data : List ℚ) (period : ℕ) : List ℚ :=
  let k := 2 / ((period : ℚ) + 1)
  match data with
  | [] => []
  | d :: rest => List.scanl (fun ema x => x * k + ema * (1 - k)) d rest

/-- The MACD triple `{macd, signal, histogram}`. -/
structure MACDResult where
  macd : ℚ
  signal : ℚ
  histogram : ℚ
deriving DecidableEq

/-- Embeds `calculateMACD(prices)`: neutral `(0,0,0)` below 26 points, else
EMA12 − EMA26 pointwise, a 9-period EMA signal line, and their difference,
reporting the latest value of each. -/
def calculateMACD (prices : List ℚ) : MACDResult :=
  if prices.length < 26 then ⟨0, 0, 0⟩ else
  let ema12 := calculateEMA prices 12
  let ema26 := calculateEMA prices 26
  let macdLine := List.zipWith (fun a b => a - b) ema12 ema26
  let signalLine := calculateEMA macdLine 9
  let histogram := List.zipWith (fun a b => a - b) macdLine signalLine
  ⟨(macdLine.getLast?).getD 0, (signalLine.getLast?).getD 0, (histogram.getLast?).getD 0⟩

/-- The Bollinger triple `{upper, middle, lower}`. -/
structure BollingerBands where
  upper : ℚ
  middle : ℚ
  lower : ℚ
deriving DecidableEq

/-- Embeds `calculateBollingerBands(prices, period, stdDev)`: zero triple below
`period` points, else SMA of the trailing window plus/minus `stdDev` times the
population standard deviation of that window. -/
def calculateBollingerBands (jsSqrt : ℚ → ℚ) (prices : List ℚ) (period : ℕ) (stdDev : ℚ) :
    BollingerBands :=
  if prices.length < period then ⟨0, 0, 0⟩ else
  let slice := prices.drop (prices.length - period)
  let sma := slice.sum / (period : ℚ)
  let variance := (slice.map (fun v => (v - sma) ^ 2)).sum / (period : ℚ)
  let stdDeviation := jsSqrt variance
  ⟨sma + stdDev * stdDeviation, sma, sma - stdDev * stdDeviation⟩

/-- The trailing `period` price changes `prices[i] - prices[i-1]` examined by
the RSI loop (`i` from `prices.length - period` to `prices.length - 1`). -/
def rsiChanges (prices : List ℚ) (period : ℕ) : List ℚ :=
  List.zipWith (fun a b => a - b) (prices.drop (prices.length - (period + 1))).tail
    (prices.drop (prices.length - (period + 1)))

/-- One step of the RSI gain/loss accumulation:
`if (change > 0) gains += change; else losses -= change`. -/
def glStep (s : ℚ × ℚ) (c : ℚ) : ℚ × ℚ :=
  if 0 < c then (s.1 + c, s.2) else (s.1, s.2 - c)

/-- The `(gains, losses)` pair accumulated by the RSI loop. -/
def gainLoss (changes : List ℚ) : ℚ × ℚ := changes.foldl glStep (0, 0)

/-- Embeds `calculateRSI(prices, period)`: neutral 50 below `period + 1`
points; `100` when the average loss is zero; else `100 - 100/(1 + rs)` with
`rs = avgGain / avgLoss`. -/
def calculateRSI (prices : List ℚ) (period : ℕ) : ℚ :=
  if prices.length < period + 1 then 50 else
  if (gainLoss (rsiChanges prices period)).2 / (period : ℚ) = 0 then 100 else
  100 - 100 / (1 + ((gainLoss (rsiChanges prices period)).1 / (period : ℚ))
    / ((gainLoss (rsiChanges prices period)).2 / (period : ℚ)))

/-- Embeds `calculateSharpeRatio(returns, riskFreeRate)`:
`(mean·252 - rf) / (std·√252)`, zero on empty input or zero volatility. -/
def calculateSharpeRatio (jsSqrt : ℚ → ℚ) (returns : List ℚ) (riskFreeRate : ℚ) : ℚ :=
  if returns.length = 0 then 0 else
  let avgReturn := returns.sum / (returns.length : ℚ)
  let annualizedReturn := avgReturn * 252
  let volatility := std jsSqrt returns * jsSqrt 252
  if volatility = 0 then 0 else (annualizedReturn - riskFreeRate) / volatility

/-- One step of the max-drawdown loop over the `(maxDD, peak)` state:
raise the peak when exceeded, then record the drawdown `(peak - price)/peak`
when it beats the current maximum. -/
def mddStep (s : ℚ × ℚ) (price : ℚ) : ℚ × ℚ :=
  (if s.1 < ((if s.2 < price then price else s.2) - price) / (if s.2 < price then price else s.2)
    then ((if s.2 < price then price else s.2) - price) / (if s.2 < price then price else s.2)
    else s.1,
   if s.2 < price then price else s.2)

/-- Embeds `calculateMaxDrawdown(prices)`: walks the series tracking the
running peak and the largest relative decline `(peak - price) / peak`. -/
def calculateMaxDrawdown (prices : List ℚ) : ℚ :=
  match prices with
  | [] => 0
  | p :: rest => (rest.foldl mddStep (0, p)).1

/-- One period of the analyst recommendation trend; counts are non-negative
integers. -/
structure RecPeriod where
  strongBuy : ℕ
  buy : ℕ
  hold : ℕ
  sell : ℕ
  strongSell : ℕ
deriving DecidableEq

/-- One period of the sentiment accumulation loop: each truthy (non-zero)
count contributes `+2/+1` (strongBuy), `+1/+1` (buy), `-1/+1` (sell),
`-2/+1` (strongSell) per unit to the running `(score, count)` pair; `hold`
is ignored. -/
def sentStep (s : ℚ × ℚ) (r : RecPeriod) : ℚ × ℚ :=
  let s := if r.strongBuy ≠ 0 then (s.1 + (r.strongBuy : ℚ) * 2, s.2 + (r.strongBuy : ℚ)) else s
  let s := if r.buy ≠ 0 then (s.1 + (r.buy : ℚ) * 1, s.2 + (r.buy : ℚ)) else s
  let s := if r.sell ≠ 0 then (s.1 - (r.sell : ℚ) * 1, s.2 + (r.sell : ℚ)) else s
  let s := if r.strongSell ≠ 0 then (s.1 - (r.strongSell : ℚ) * 2, s.2 + (r.strongSell : ℚ)) else s
  s

/-- Closed form for the total sentiment score of a trend list:
`Σ (2·strongBuy + buy - sell - 2·strongSell)`. -/
def sentScore (recs : List RecPeriod) : ℚ :=
  (recs.map (fun r => 2 * (r.strongBuy : ℚ) + r.buy - r.sell - 2 * r.strongSell)).sum

/-- Closed form for the total sentiment count of a trend list:
`Σ (strongBuy + buy + sell + strongSell)`. -/
def sentCount (recs : List RecPeriod) : ℚ :=
  (recs.map (fun r => (r.strongBuy : ℚ) + r.buy + r.sell + r.strongSell)).sum

/-- Embeds `enhancedSentimentScore(recommendations)`: `0.5` for an empty list
or zero count, else `clamp01((score/(count·2) + 1)/2)`. -/
def enhancedSentimentScore (recs : List RecPeriod) : ℚ :=
  if recs.length = 0 then 1/2 else
  if (recs.foldl sentStep (0, 0)).2 = 0 then 1/2 else
  clamp01 (((recs.foldl sentStep (0, 0)).1 / ((recs.foldl sentStep (0, 0)).2 * 2) + 1) / 2)

/-- Embeds `toStars(x)`: `Math.round(clamp01(x)·5·10)/10`. -/
def toStars (x : ℚ) : ℚ := (jsRound (clamp01 x * 5 * 10) : ℚ) / 10

/-- The raw per-symbol payload consumed by `handleSearch` after JSON decoding:
each fundamental field as delivered by its source object (`statistics`,
`quote`, `summaryDetail`, `financialData`), the recommendation trend, and the
filtered list of closing prices. -/
structure StockData where
  statsTrailingPE : Option ℚ
  quoteTrailingPE : Option ℚ
  statsForwardPE : Option ℚ
  summForwardPE : Option ℚ
  statsPriceToBook : Option ℚ
  quotePriceToBook : Option ℚ
  quotePriceToSales : Option ℚ
  statsBeta : Option ℚ
  summBeta : Option ℚ
  quoteRegularMarketPrice : Option ℚ
  dataPrice : Option ℚ
  finReturnOnEquity : Option ℚ
  finDebtToEquity : Option ℚ
  finFreeCashflow : Option ℚ
  finEarningsGrowth : Option ℚ
  finRevenueGrowth : Option ℚ
  finTargetMeanPrice : Option ℚ
  recommendations : List RecPeriod
  closes : List ℚ

/-- The extracted engine inputs, after the `||`-coalescing block of
`handleSearch` (`pe = statistics.trailingPE || quote.trailingPE || null`,
`beta = statistics.beta || summaryDetail.beta || 1`, and so on). -/
structure Extracted where
  currentPrice : Option ℚ
  pe : Option ℚ
  forwardPE : Option ℚ
  pb : Option ℚ
  ps : Option ℚ
  beta : ℚ
  roe : Option ℚ
  debtToEquity : Option ℚ
  freeCashflow : Option ℚ
  earningsGrowth : Option ℚ
  revenueGrowth : Option ℚ
  targetMeanPrice : Option ℚ
  recommendations : List RecPeriod
  closes : List ℚ

/-- The field-extraction block of `handleSearch` (the `||` chains). -/
def extract (d : StockData) : Extracted :=
  ⟨jsOr d.quoteRegularMarketPrice (jsOr d.dataPrice none),
   jsOr d.statsTrailingPE (jsOr d.quoteTrailingPE none),
   jsOr d.statsForwardPE (jsOr d.summForwardPE none),
   jsOr d.statsPriceToBook (jsOr d.quotePriceToBook none),
   jsOr d.quotePriceToSales none,
   jsOrVal d.statsBeta (jsOrVal d.summBeta 1),
   jsOr d.finReturnOnEquity none,
   jsOr d.finDebtToEquity none,
   jsOr d.finFreeCashflow none,
   jsOr d.finEarningsGrowth none,
   jsOr d.finRevenueGrowth none,
   jsOr d.finTargetMeanPrice none,
   d.recommendations,
   d.closes⟩

/-- The technical state computed inside the `closes.length > 30` block of
`handleSearch` (all fields keep their initialisation defaults otherwise). -/
structure Technicals where
  momentum12m : ℚ
  momentum6m : ℚ
  momentum3m : ℚ
  rsi : ℚ
  ma50 : Option ℚ
  ma200 : Option ℚ
  volatility : ℚ
  sharpeRatio : ℚ
  maxDrawdown : ℚ
  macd : MACDResult
  bollingerBands : BollingerBands

/-- Embeds the `dailyReturns` loop: `(closes[i] - closes[i-1]) / closes[i-1]`. -/
def dailyReturns (closes : List ℚ) : List ℚ :=
  List.zipWith (fun prev cur => (cur - prev) / prev) closes closes.tail

/-- Embeds the `momentum12m` computation (inside the `length > 30` block):
the trailing-252-point return when at least 252 closes exist, else the
whole-series return `(end - closes[0]) / closes[0]`. -/
def momentum12m (closes : List ℚ) : ℚ :=
  let endP := closes.getD (closes.length - 1) 0
  if 252 ≤ closes.length then
    (endP - closes.getD (closes.length - 252) 0) / closes.getD (closes.length - 252) 0
  else (endP - closes.getD 0 0) / closes.getD 0 0

/-- Embeds `momentum6m`: trailing-126-point return when available, else the
initialisation default `0`. -/
def momentum6m (closes : List ℚ) : ℚ :=
  let endP := closes.getD (closes.length - 1) 0
  if 126 ≤ closes.length then
    (endP - closes.getD (closes.length - 126) 0) / closes.getD (closes.length - 126) 0
  else 0

/-- Embeds `momentum3m`: trailing-63-point return when available, else `0`. -/
def momentum3m (closes : List ℚ) : ℚ :=
  let endP := closes.getD (closes.length - 1) 0
  if 63 ≤ closes.length then
    (endP - closes.getD (closes.length - 63) 0) / closes.getD (closes.length - 63) 0
  else 0

/-- The initialisation defaults of the technical block (`momentum* = 0`,
`rsi = 50`, `ma* = null`, `volatility = sharpe = maxDrawdown = 0`, zero MACD
and Bollinger triples). -/
def neutralTech : Technicals := ⟨0, 0, 0, 50, none, none, 0, 0, 0, ⟨0, 0, 0⟩, ⟨0, 0, 0⟩⟩

/-- The technical-indicator block of `handleSearch`: neutral defaults when
`closes.length ≤ 30`, otherwise momenta, RSI(14), MACD, Bollinger(20, 2),
SMA50/SMA200 (absent below 50/200 points), annualized volatility, Sharpe
ratio (risk-free rate 0.06) and max drawdown. -/
def technicals (jsSqrt : ℚ → ℚ) (closes : List ℚ) : Technicals :=
  if closes.length ≤ 30 then neutralTech
  else
    let ma50 := if 50 ≤ closes.length then some ((closes.drop (closes.length - 50)).sum / 50)
      else none
    let ma200 := if 200 ≤ closes.length then some ((closes.drop (closes.length - 200)).sum / 200)
      else none
    let rets := dailyReturns closes
    ⟨momentum12m closes, momentum6m closes, momentum3m closes,
     calculateRSI closes 14, ma50, ma200,
     std jsSqrt rets * jsSqrt 252,
     calculateSharpeRatio jsSqrt rets (6/100),
     calculateMaxDrawdown closes,
     calculateMACD closes,
     calculateBollingerBands jsSqrt closes 20 2⟩

/-- One conditional accumulation step of the valuation/growth scorers:
when `cond` holds, add `term * w` to the running score and `w` to the
running weight count. -/
def accum (cond : Bool) (term w : ℚ) (s : ℚ × ℚ) : ℚ × ℚ :=
  if cond then (s.1 + term * w, s.2 + w) else s

/-- JavaScript `x !== null && x > 0` on a nullable number. -/
def optPos : Option ℚ → Bool
  | none => false
  | some v => decide (0 < v)

/-- Embeds the `valComp` closure: score starts at `0.5`, each present and
positive input adds its normalized value times its weight, and the result is
`score / (count + (1 - count)·0.5)` when any input was present, else `0.5`. -/
def valComp (pe forwardPE pb ps roe : Option ℚ) : ℚ :=
  let s0 : ℚ × ℚ := (1/2, 0)
  let s1 := accum (optPos pe) (normalize (1 / pe.getD 0) (1/50) (1/5)) (35/100) s0
  let s2 := accum (optPos forwardPE) (normalize (1 / forwardPE.getD 0) (1/40) (1/8)) (15/100) s1
  let s3 := accum (optPos pb) (normalize (1 / pb.getD 0) (1/8) (1 / (8/10))) (25/100) s2
  let s4 := accum (optPos ps) (normalize (1 / ps.getD 0) (1/10) (1 / (5/10))) (15/100) s3
  let s5 := accum (optPos roe) (normalize (roe.getD 0) (5/100) (30/100)) (10/100) s4
  if 0 < s5.2 then s5.1 / (s5.2 + (1 - s5.2) * (1/2)) else 1/2

/-- Embeds the `growthComp` closure: score starts at `0`, earnings growth,
revenue growth, a positive-free-cash-flow flag and ROE contribute weighted
terms, and the result is `score / count` when any input was present, else
`0.5`. -/
def growthComp (earningsGrowth revenueGrowth freeCashflow roe : Option ℚ) : ℚ :=
  let s0 : ℚ × ℚ := (0, 0)
  let s1 := accum earningsGrowth.isSome
    (normalize (earningsGrowth.getD 0) (-(3/10)) (1/2)) (4/10) s0
  let s2 := accum revenueGrowth.isSome
    (normalize (revenueGrowth.getD 0) (-(2/10)) (4/10)) (3/10) s1
  let s3 := accum (optPos freeCashflow) 1 (15/100) s2
  let s4 := accum roe.isSome (normalize (roe.getD 0) 0 (35/100)) (15/100) s3
  if 0 < s4.2 then s4.1 / s4.2 else 1/2

/-- Embeds the `momentumComp` closure: normalized momenta, RSI, MACD
histogram sign, moving-average crossover state and analyst target upside,
clamped to `[0,1]`. -/
def momentumComp (t : Technicals) (currentPrice targetMeanPrice : Option ℚ) : ℚ :=
  let score := normalize t.momentum12m (-(1/2)) 1 * (20/100)
    + normalize t.momentum6m (-(3/10)) (8/10) * (15/100)
    + normalize t.momentum3m (-(2/10)) (1/2) * (10/100)
    + normalize t.rsi 20 80 * (20/100)
    + (if 0 < t.macd.histogram then 10/100 else 5/100)
  let score := score +
    (if truthy t.ma50 && truthy t.ma200 && truthy currentPrice then
      (if t.ma50.getD 0 < currentPrice.getD 0 ∧ t.ma200.getD 0 < t.ma50.getD 0 then 15/100
       else if t.ma50.getD 0 < currentPrice.getD 0 ∨ t.ma200.getD 0 < t.ma50.getD 0 then 75/1000
       else 25/1000)
     else 5/100)
  let score := if truthy targetMeanPrice && truthy currentPrice then
      score + normalize ((targetMeanPrice.getD 0 - currentPrice.getD 0) / currentPrice.getD 0)
        (-(3/10)) (1/2) * (5/100)
    else score
  clamp01 score

/-- Embeds the `riskComp` closure: volatility (default `0.15` when falsy),
`|beta - 1|`, max drawdown, an inverted Sharpe term and debt-to-equity
(default `0.5` when null), clamped to `[0,1]`. -/
def riskComp (t : Technicals) (beta : ℚ) (debtToEquity : Option ℚ) : ℚ :=
  let risk := (if t.volatility ≠ 0 then normalize t.volatility (1/10) (8/10) else 15/100)
      * (30/100)
    + normalize |beta - 1| 0 (3/2) * (20/100)
    + normalize t.maxDrawdown 0 (6/10) * (25/100)
    + (if 0 < t.sharpeRatio then 1 - normalize t.sharpeRatio (-1) 3 else 1) * (15/100)
    + (if debtToEquity.isSome then normalize (debtToEquity.getD 0) 0 2 else 1/2) * (10/100)
  clamp01 risk

/-- The engine's output object (the scoring fields of the `setResult` call). -/
structure CompositeRating where
  valComp : ℚ
  growthComp : ℚ
  momentumComp : ℚ
  sentimentComp : ℚ
  riskComp : ℚ
  score : ℚ
  stars : ℚ
  riskLabel : String
  projReturn : ℤ
  confidence : ℕ

/-- The scoring tail of `handleSearch` on extracted inputs: the five component
scores, the fixed-weight raw score, the affine-rescaled clamped final score,
stars, risk label, projected return and confidence. -/
def rate (jsSqrt : ℚ → ℚ) (e : Extracted) : CompositeRating :=
  let t := technicals jsSqrt e.closes
  let sentiment := enhancedSentimentScore e.recommendations
  let v := valComp e.pe e.forwardPE e.pb e.ps e.roe
  let g := growthComp e.earningsGrowth e.revenueGrowth e.freeCashflow e.roe
  let m := momentumComp t e.currentPrice e.targetMeanPrice
  let sC := sentiment
  let r := riskComp t e.beta e.debtToEquity
  let rawScore := (30/100) * v + (25/100) * g + (15/100) * m + (15/100) * sC - (15/100) * r
  let score := clamp01 (rawScore * (12/10) + 1/10)
  let stars := toStars score
  let riskLabel :=
    if (85/100 : ℚ) ≤ score then "High Risk-High Reward"
    else if (70/100 : ℚ) ≤ score then "Moderate"
    else if (1/2 : ℚ) ≤ score then "Balanced"
    else if (3/10 : ℚ) ≤ score then "Cautious"
    else "High Risk"
  let projection := t.momentum12m * (25/100) + (g - 1/2) * (35/100)
    + (v - 1/2) * (30/100) + (sC - 1/2) * (10/100)
  let projection := if truthy e.targetMeanPrice && truthy e.currentPrice then
      projection * (6/10)
        + ((e.targetMeanPrice.getD 0 - e.currentPrice.getD 0) / e.currentPrice.getD 0) * (4/10)
    else projection
  let projReturn := jsRound (projection * 100)
  let confidence := min 95 (50
    + (if 200 ≤ e.closes.length then 15 else 0)
    + (if 3 ≤ e.recommendations.length then 10 else 0)
    + (if e.pe.isSome && e.pb.isSome then 10 else 0)
    + (if e.earningsGrowth.isSome then 10 else 0)
    + (if e.targetMeanPrice.isSome then 5 else 0))
  ⟨v, g, m, sC, r, score, stars, riskLabel, projReturn, confidence⟩

/-- The whole scoring pipeline of `handleSearch`: extraction then rating. -/
def analyze (jsSqrt : ℚ → ℚ) (d : StockData) : CompositeRating :=
  rate jsSqrt (extract d)

/-- The degenerate payload: fundamentals entirely absent, no recommendations,
empty price series. -/
def emptyInput : StockData :=
  ⟨none, none, none, none, none, none, none, none, none, none, none, none, none, none, none,
   none, none, [], []⟩

/-! ### Basic lemmas about the numeric helpers -/

theorem jsMax_eq (a b : ℚ) : jsMax a b = max a b := by
  unfold jsMax
  split_ifs with h
  · exact (max_eq_right h.le).symm
  · exact (max_eq_left (not_lt.mp h)).symm

theorem jsMin_eq (a b : ℚ) : jsMin a b = min a b := by
  unfold jsMin
  split_ifs with h
  · exact (min_eq_left h.le).symm
  · exact (min_eq_right (not_lt.mp h)).symm

theorem clamp01_eq (x : ℚ) : clamp01 x = max 0 (min 1 x) := by
  rw [clamp01, jsMax_eq, jsMin_eq]

theorem clamp01_nonneg (x : ℚ) : 0 ≤ clamp01 x := by
  rw [clamp01_eq]
  exact le_max_left 0 _

theorem clamp01_le_one (x : ℚ) : clamp01 x ≤ 1 := by
  rw [clamp01_eq]
  exact max_le (by norm_num) (min_le_left 1 x)

theorem clamp01_eq_self {x : ℚ} (h0 : 0 ≤ x) (h1 : x ≤ 1) : clamp01 x = x := by
  rw [clamp01_eq, min_eq_right h1, max_eq_right h0]

theorem clamp01_idem (x : ℚ) : clamp01 (clamp01 x) = clamp01 x :=
  clamp01_eq_self (clamp01_nonneg x) (clamp01_le_one x)

theorem clamp01_mono {a b : ℚ} (h : a ≤ b) : clamp01 a ≤ clamp01 b := by
  rw [clamp01_eq, clamp01_eq]
  exact max_le_max le_rfl (min_le_min le_rfl h)

theorem normalize_mem (x mn mx : ℚ) : 0 ≤ normalize x mn mx ∧ normalize x mn mx ≤ 1 := by
  unfold normalize
  split_ifs
  · norm_num
  · exact ⟨clamp01_nonneg _, clamp01_le_one _⟩

theorem normalize_unit {v : ℚ} (h0 : 0 ≤ v) (h1 : v ≤ 1) : normalize v 0 1 = v := by
  unfold normalize
  rw [if_neg (by norm_num)]
  rw [show (v - 0) / (1 - 0) = v by ring]
  exact clamp01_eq_self h0 h1

/-! ### Invariant of the conditional score accumulation -/

/-- Invariant of the `(score, count)` accumulation: the score stays between
`base` and `base + count`, and the count between `0` and `hi`. -/
def SInv (base hi : ℚ) (s : ℚ × ℚ) : Prop :=
  base ≤ s.1 ∧ s.1 ≤ base + s.2 ∧ 0 ≤ s.2 ∧ s.2 ≤ hi

theorem SInv_mono {base hi hi' : ℚ} {s : ℚ × ℚ} (h : hi ≤ hi') (hs : SInv base hi s) :
    SInv base hi' s :=
  ⟨hs.1, hs.2.1, hs.2.2.1, le_trans hs.2.2.2 h⟩

theorem accum_inv {base hi : ℚ} {s : ℚ × ℚ} (cond : Bool) {term w : ℚ}
    (hs : SInv base hi s) (ht0 : 0 ≤ term) (ht1 : term ≤ 1) (hw : 0 ≤ w) :
    SInv base (hi + w) (accum cond term w s) := by
  obtain ⟨h1, h2, h3, h4⟩ := hs
  have htw0 : 0 ≤ term * w := mul_nonneg ht0 hw
  have htw1 : term * w ≤ w := mul_le_of_le_one_left hw ht1
  cases cond with
  | false =>
    show SInv base (hi + w) s
    exact ⟨h1, h2, h3, by linarith⟩
  | true =>
    show SInv base (hi + w) (s.1 + term * w, s.2 + w)
    exact ⟨show base ≤ s.1 + term * w by linarith,
      show s.1 + term * w ≤ base + (s.2 + w) by linarith,
      show (0 : ℚ) ≤ s.2 + w by linarith,
      show s.2 + w ≤ hi + w by linarith⟩

/-- Range of the valuation scorer's final rescale
`score / (count + (1 - count)·0.5)` over the accumulation invariant. -/
theorem valFinal_bounds {s : ℚ × ℚ} (hs : SInv (1/2) 1 s) :
    1/2 ≤ (if 0 < s.2 then s.1 / (s.2 + (1 - s.2) * (1/2)) else 1/2)
    ∧ (if 0 < s.2 then s.1 / (s.2 + (1 - s.2) * (1/2)) else 1/2) ≤ 3/2 := by
  obtain ⟨h1, h2, h3, h4⟩ := hs
  split_ifs with hc
  · have hd : s.2 + (1 - s.2) * (1/2) = (1 + s.2) / 2 := by ring
    have hdpos : 0 < s.2 + (1 - s.2) * (1/2) := by rw [hd]; linarith
    constructor
    · rw [le_div_iff₀ hdpos]
      nlinarith
    · rw [div_le_iff₀ hdpos]
      nlinarith
  · norm_num

theorem valComp_bounds (pe forwardPE pb ps roe : Option ℚ) :
    1/2 ≤ valComp pe forwardPE pb ps roe ∧ valComp pe forwardPE pb ps roe ≤ 3/2 := by
  have i0 : SInv (1/2) 0 ((1/2 : ℚ), (0 : ℚ)) := ⟨le_refl _, by norm_num, le_refl _, le_refl _⟩
  have i1 := accum_inv (optPos pe) i0
    (normalize_mem (1 / pe.getD 0) (1/50) (1/5)).1
    (normalize_mem (1 / pe.getD 0) (1/50) (1/5)).2 (by norm_num : (0:ℚ) ≤ 35/100)
  have i2 := accum_inv (optPos forwardPE) i1
    (normalize_mem (1 / forwardPE.getD 0) (1/40) (1/8)).1
    (normalize_mem (1 / forwardPE.getD 0) (1/40) (1/8)).2 (by norm_num : (0:ℚ) ≤ 15/100)
  have i3 := accum_inv (optPos pb) i2
    (normalize_mem (1 / pb.getD 0) (1/8) (1 / (8/10))).1
    (normalize_mem (1 / pb.getD 0) (1/8) (1 / (8/10))).2 (by norm_num : (0:ℚ) ≤ 25/100)
  have i4 := accum_inv (optPos ps) i3
    (normalize_mem (1 / ps.getD 0) (1/10) (1 / (5/10))).1
    (normalize_mem (1 / ps.getD 0) (1/10) (1 / (5/10))).2 (by norm_num : (0:ℚ) ≤ 15/100)
  have i5 := accum_inv (optPos roe) i4
    (normalize_mem (roe.getD 0) (5/100) (30/100)).1
    (normalize_mem (roe.getD 0) (5/100) (30/100)).2 (by norm_num : (0:ℚ) ≤ 10/100)
  exact valFinal_bounds (SInv_mono (by norm_num) i5)

/-- Range of the growth scorer's final `score / count` over the accumulation
invariant. -/
theorem growthFinal_bounds {s : ℚ × ℚ} (hs : SInv 0 1 s) :
    0 ≤ (if 0 < s.2 then s.1 / s.2 else 1/2)
    ∧ (if 0 < s.2 then s.1 / s.2 else 1/2) ≤ 1 := by
  obtain ⟨h1, h2, h3, h4⟩ := hs
  split_ifs with hc
  · exact ⟨div_nonneg h1 (le_of_lt hc), (div_le_one hc).mpr (by linarith)⟩
  · norm_num

theorem growthComp_bounds (earningsGrowth revenueGrowth freeCashflow roe : Option ℚ) :
    0 ≤ growthComp earningsGrowth revenueGrowth freeCashflow roe
    ∧ growthComp earningsGrowth revenueGrowth freeCashflow roe ≤ 1 := by
  have i0 : SInv 0 0 ((0 : ℚ), (0 : ℚ)) := ⟨le_refl _, by norm_num, le_refl _, le_refl _⟩
  have i1 := accum_inv earningsGrowth.isSome i0
    (normalize_mem (earningsGrowth.getD 0) (-(3/10)) (1/2)).1
    (normalize_mem (earningsGrowth.getD 0) (-(3/10)) (1/2)).2 (by norm_num : (0:ℚ) ≤ 4/10)
  have i2 := accum_inv revenueGrowth.isSome i1
    (normalize_mem (revenueGrowth.getD 0) (-(2/10)) (4/10)).1
    (normalize_mem (revenueGrowth.getD 0) (-(2/10)) (4/10)).2 (by norm_num : (0:ℚ) ≤ 3/10)
  have i3 := accum_inv (optPos freeCashflow) i2 (by norm_num : (0:ℚ) ≤ 1) (le_refl 1)
    (by norm_num : (0:ℚ) ≤ 15/100)
  have i4 := accum_inv roe.isSome i3
    (normalize_mem (roe.getD 0) 0 (35/100)).1
    (normalize_mem (roe.getD 0) 0 (35/100)).2 (by norm_num : (0:ℚ) ≤ 15/100)
  exact growthFinal_bounds (SInv_mono (by norm_num) i4)

theorem momentumComp_mem (t : Technicals) (currentPrice targetMeanPrice : Option ℚ) :
    0 ≤ momentumComp t currentPrice targetMeanPrice
    ∧ momentumComp t currentPrice targetMeanPrice ≤ 1 :=
  ⟨clamp01_nonneg _, clamp01_le_one _⟩

theorem riskComp_mem (t : Technicals) (beta : ℚ) (debtToEquity : Option ℚ) :
    0 ≤ riskComp t beta debtToEquity ∧ riskComp t beta debtToEquity ≤ 1 :=
  ⟨clamp01_nonneg _, clamp01_le_one _⟩

theorem enhancedSentimentScore_mem (recs : List RecPeriod) :
    0 ≤ enhancedSentimentScore recs ∧ enhancedSentimentScore recs ≤ 1 := by
  unfold enhancedSentimentScore
  split_ifs
  · norm_num
  · norm_num
  · exact ⟨clamp01_nonneg _, clamp01_le_one _⟩

/-! ### Constant price series -/

theorem scanl_const (f : ℚ → ℚ → ℚ) (c : ℚ) (hf : f c c = c) (m : ℕ) :
    List.scanl f c (List.replicate m c) = List.replicate (m + 1) c := by
  induction m with
  | zero => rfl
  | succ k ih =>
    rw [List.replicate_succ, List.scanl_cons, hf, ih]
    rfl

theorem ema_replicate (p : ℕ) (c : ℚ) (n : ℕ) :
    calculateEMA (List.replicate n c) p = List.replicate n c := by
  cases n with
  | zero => rfl
  | succ m =>
    rw [List.replicate_succ]
    exact scanl_const
      (fun ema x => x * (2 / ((p : ℚ) + 1)) + ema * (1 - 2 / ((p : ℚ) + 1))) c (by ring) m

theorem macd_replicate (n : ℕ) (c : ℚ) (h : 26 ≤ n) :
    calculateMACD (List.replicate n c) = ⟨0, 0, 0⟩ := by
  have hn : ¬ (List.replicate n c).length < 26 := by
    rw [List.length_replicate]; omega
  have h0 : n ≠ 0 := by omega
  simp only [calculateMACD]
  rw [if_neg hn, ema_replicate, ema_replicate, List.zipWith_replicate, min_self, sub_self,
    ema_replicate, List.zipWith_replicate, min_self, sub_self]
  simp [List.getLast?_replicate, h0]

theorem bollinger_replicate (jsSqrt : ℚ → ℚ) (h0 : jsSqrt 0 = 0) (n : ℕ) (c : ℚ)
    (h : 20 ≤ n) : calculateBollingerBands jsSqrt (List.replicate n c) 20 2 = ⟨c, c, c⟩ := by
  have hn : ¬ (List.replicate n c).length < 20 := by rw [List.length_replicate]; omega
  simp only [calculateBollingerBands]
  rw [if_neg hn, List.length_replicate, List.drop_replicate,
    show n - (n - 20) = 20 from by omega]
  have hsum : (List.replicate 20 c).sum / ((20 : ℕ) : ℚ) = c := by
    rw [List.sum_replicate, nsmul_eq_mul]
    push_cast
    ring
  simp only [hsum, List.map_replicate, sub_self]
  rw [show ((0 : ℚ) ^ 2) = 0 from by norm_num, List.sum_replicate, smul_zero, zero_div, h0]
  simp

theorem glZeros (m : ℕ) (a b : ℚ) :
    List.foldl glStep (a, b) (List.replicate m 0) = (a, b) := by
  induction m with
  | zero => rfl
  | succ k ih =>
    rw [List.replicate_succ, List.foldl_cons, show glStep (a, b) 0 = (a, b) from by
      simp [glStep]]
    exact ih

theorem rsiChanges_replicate (n : ℕ) (c : ℚ) (h : 15 ≤ n) :
    rsiChanges (List.replicate n c) 14 = List.replicate 14 0 := by
  unfold rsiChanges
  rw [List.length_replicate, show (14 + 1 : ℕ) = 15 from rfl, List.drop_replicate,
    show n - (n - 15) = 15 from by omega, List.tail_replicate,
    show (15 - 1 : ℕ) = 14 from rfl, List.zipWith_replicate,
    show (14 ⊓ 15 : ℕ) = 14 from rfl, sub_self]

theorem rsi_replicate (n : ℕ) (c : ℚ) (h : 15 ≤ n) :
    calculateRSI (List.replicate n c) 14 = 100 := by
  have hn : ¬ (List.replicate n c).length < 14 + 1 := by rw [List.length_replicate]; omega
  have hgl : gainLoss (List.replicate 14 0) = (0, 0) := glZeros 14 0 0
  unfold calculateRSI
  rw [if_neg hn, rsiChanges_replicate n c h, hgl]
  norm_num

theorem mddFold_const (c : ℚ) (m : ℕ) :
    List.foldl mddStep (0, c) (List.replicate m c) = (0, c) := by
  induction m with
  | zero => rfl
  | succ k ih =>
    rw [List.replicate_succ, List.foldl_cons, show mddStep (0, c) c = (0, c) from by
      simp [mddStep]]
    exact ih

theorem maxdd_replicate (n : ℕ) (c : ℚ) : calculateMaxDrawdown (List.replicate n c) = 0 := by
  cases n with
  | zero => rfl
  | succ m =>
    rw [List.replicate_succ]
    show (List.foldl mddStep (0, c) (List.replicate m c)).1 = 0
    rw [mddFold_const]

/-! ### Claim 2 -/

/-- Claim C2, counterexample: on a series of 300 constant prices (all 100) the
code's RSI is not 50 — the `avgLoss == 0` branch applies and returns 100. -/
theorem claim2_counterexample : calculateRSI (List.replicate 300 100) 14 ≠ 50 := by
  rw [rsi_replicate 300 100 (by norm_num)]
  norm_num

/-- Claim C2, amended: on 300 constant prices equal to 100 there is no
division by zero, but the `avgLoss == 0` branch makes RSI equal 100 (not 50);
the MACD histogram is 0, the Bollinger bands collapse to
upper = middle = lower = 100, and the max drawdown is 0. -/
theorem claim2_amended (jsSqrt : ℚ → ℚ) (h0 : jsSqrt 0 = 0) :
    calculateRSI (List.replicate 300 100) 14 = 100
    ∧ (calculateMACD (List.replicate 300 100)).histogram = 0
    ∧ calculateBollingerBands jsSqrt (List.replicate 300 100) 20 2 = ⟨100, 100, 100⟩
    ∧ calculateMaxDrawdown (List.replicate 300 100) = 0 :=
  ⟨rsi_replicate 300 100 (by norm_num),
   by rw [macd_replicate 300 100 (by norm_num)],
   bollinger_replicate jsSqrt h0 300 100 (by norm_num),
   maxdd_replicate 300 100⟩

/-- Witness for the amended claim C2 with the square root instantiated. -/
theorem claim2_witness :
    calculateBollingerBands (fun _ => 0) (List.replicate 300 100) 20 2 = ⟨100, 100, 100⟩
    ∧ calculateRSI (List.replicate 300 100) 14 = 100 :=
  ⟨(claim2_amended (fun _ => 0) rfl).2.2.1, (claim2_amended (fun _ => 0) rfl).1⟩

/-! ### Claim 3 -/

/-- The final score of every rating is the clamped affine rescale of the
fixed-weight combination of its own five sub-scores (definitional fact about
the scoring tail). -/
theorem score_formula (jsSqrt : ℚ → ℚ) (d : StockData) :
    (analyze jsSqrt d).score = clamp01
      (((30/100) * (analyze jsSqrt d).valComp + (25/100) * (analyze jsSqrt d).growthComp
        + (15/100) * (analyze jsSqrt d).momentumComp
        + (15/100) * (analyze jsSqrt d).sentimentComp
        - (15/100) * (analyze jsSqrt d).riskComp) * (12/10) + 1/10) := rfl

theorem momentumComp_neutral : momentumComp neutralTech none none = 1553/4620 := by
  norm_num [momentumComp, neutralTech, normalize, clamp01, jsMax, jsMin, truthy]

theorem riskComp_neutral : riskComp neutralTech 1 none = 49/200 := by
  norm_num [riskComp, neutralTech, normalize, clamp01, jsMax, jsMin]

theorem analyze_empty_valComp (jsSqrt : ℚ → ℚ) :
    (analyze jsSqrt emptyInput).valComp = 1/2 := rfl

theorem analyze_empty_growthComp (jsSqrt : ℚ → ℚ) :
    (analyze jsSqrt emptyInput).growthComp = 1/2 := rfl

theorem analyze_empty_sentimentComp (jsSqrt : ℚ → ℚ) :
    (analyze jsSqrt emptyInput).sentimentComp = 1/2 := rfl

theorem analyze_empty_momentumComp (jsSqrt : ℚ → ℚ) :
    (analyze jsSqrt emptyInput).momentumComp = 1553/4620 := momentumComp_neutral

theorem analyze_empty_riskComp (jsSqrt : ℚ → ℚ) :
    (analyze jsSqrt emptyInput).riskComp = 49/200 := riskComp_neutral

theorem analyze_empty_confidence (jsSqrt : ℚ → ℚ) :
    (analyze jsSqrt emptyInput).confidence = 50 := rfl

/-- Claim C3, counterexample: on the fully absent input the momentum and risk
sub-scores are not the neutral 0.5 (they are 1553/4620 and 49/200). -/
theorem claim3_counterexample :
    (analyze (fun _ => 0) emptyInput).momentumComp ≠ 1/2
    ∧ (analyze (fun _ => 0) emptyInput).riskComp ≠ 1/2 := by
  refine ⟨?_, ?_⟩
  · rw [analyze_empty_momentumComp]
    norm_num
  · rw [analyze_empty_riskComp]
    norm_num

/-- Claim C3, amended: when fundamentals are entirely absent, the
recommendation list is empty and the price series has length 0 (for any
square-root interpretation, which that path never consults), the valuation,
growth and sentiment sub-scores are 0.5 and confidence is 50, but the
momentum sub-score is 1553/4620 (≈0.336), the risk sub-score is 49/200, and
the final score is the affine rescale of the resulting raw score, exactly
413033/770000 ≈ 0.536 (neither ≈0.58 as the spec computes nor ≈0.5 as its
prose says). -/
theorem claim3_amended (jsSqrt : ℚ → ℚ) :
    (analyze jsSqrt emptyInput).valComp = 1/2
    ∧ (analyze jsSqrt emptyInput).growthComp = 1/2
    ∧ (analyze jsSqrt emptyInput).sentimentComp = 1/2
    ∧ (analyze jsSqrt emptyInput).momentumComp = 1553/4620
    ∧ (analyze jsSqrt emptyInput).riskComp = 49/200
    ∧ (analyze jsSqrt emptyInput).confidence = 50
    ∧ (analyze jsSqrt emptyInput).score = 413033/770000 := by
  refine ⟨analyze_empty_valComp jsSqrt, analyze_empty_growthComp jsSqrt,
    analyze_empty_sentimentComp jsSqrt, analyze_empty_momentumComp jsSqrt,
    analyze_empty_riskComp jsSqrt, analyze_empty_confidence jsSqrt, ?_⟩
  rw [score_formula, analyze_empty_valComp, analyze_empty_growthComp,
    analyze_empty_sentimentComp, analyze_empty_momentumComp, analyze_empty_riskComp]
  norm_num [clamp01, jsMax, jsMin]

/-! ### Claim 1 -/

/-- Claim C1, counterexample: with only a trailing P/E of 5 present (and it is
a realistic, positive input), the valuation scorer returns 34/27 > 1, so the
rescaling for missing inputs does not keep the result in [0,1]. -/
theorem claim1_counterexample :
    valComp (some 5) none none none none = 34/27
    ∧ ¬ valComp (some 5) none none none none ≤ 1 := by
  constructor <;> norm_num [valComp, accum, optPos, normalize, clamp01, jsMax, jsMin]

/-- Claim C1, amended: the growth, momentum, sentiment and risk sub-scores of
every rating lie in [0,1], but the valuation sub-score only lies in [1/2, 3/2]
(its accumulator starts at 0.5 before the rescale divides by
`count + (1-count)·0.5`, so it exceeds 1 whenever present inputs score high
enough). -/
theorem claim1_amended (jsSqrt : ℚ → ℚ) (d : StockData) :
    (1/2 ≤ (analyze jsSqrt d).valComp ∧ (analyze jsSqrt d).valComp ≤ 3/2)
    ∧ (0 ≤ (analyze jsSqrt d).growthComp ∧ (analyze jsSqrt d).growthComp ≤ 1)
    ∧ (0 ≤ (analyze jsSqrt d).momentumComp ∧ (analyze jsSqrt d).momentumComp ≤ 1)
    ∧ (0 ≤ (analyze jsSqrt d).sentimentComp ∧ (analyze jsSqrt d).sentimentComp ≤ 1)
    ∧ (0 ≤ (analyze jsSqrt d).riskComp ∧ (analyze jsSqrt d).riskComp ≤ 1) :=
  ⟨valComp_bounds _ _ _ _ _, growthComp_bounds _ _ _ _, momentumComp_mem _ _ _,
    enhancedSentimentScore_mem _, riskComp_mem _ _ _⟩

/-! ### Claim 5 -/

/-- Claim C5, counterexample: `normalize` is not idempotent under
re-application with the same bounds (`normalize(5,0,10) = 1/2` but
`normalize(1/2,0,10) = 1/20`), and it is not monotone non-decreasing in `x`
when `max < min` (`normalize(0,1,0) = 1 > 0 = normalize(1,1,0)`). -/
theorem claim5_counterexample :
    normalize (normalize 5 0 10) 0 10 ≠ normalize 5 0 10
    ∧ ¬ normalize 0 1 0 ≤ normalize 1 1 0 := by
  constructor <;> norm_num [normalize, clamp01, jsMax, jsMin]

/-- Claim C5, amended: `normalize(x,min,max)` returns 1/2 on a degenerate
range and otherwise clamps `(x-min)/(max-min)` to [0,1]; its value always
lies in [0,1]; re-normalizing the result over the unit range [0,1] is the
identity (the form of idempotence that holds); and it is monotone
non-decreasing in `x` provided `min < max`. -/
theorem claim5_amended (x mn mx : ℚ) :
    (mn = mx → normalize x mn mx = 1/2)
    ∧ (mn ≠ mx → normalize x mn mx = clamp01 ((x - mn) / (mx - mn)))
    ∧ (0 ≤ normalize x mn mx ∧ normalize x mn mx ≤ 1)
    ∧ normalize (normalize x mn mx) 0 1 = normalize x mn mx
    ∧ (∀ y, mn < mx → x ≤ y → normalize x mn mx ≤ normalize y mn mx) := by
  refine ⟨?_, ?_, normalize_mem x mn mx, ?_, ?_⟩
  · intro h
    unfold normalize
    rw [if_pos h.symm]
  · intro h
    unfold normalize
    rw [if_neg (Ne.symm h)]
  · exact normalize_unit (normalize_mem x mn mx).1 (normalize_mem x mn mx).2
  · intro y hlt hxy
    unfold normalize
    rw [if_neg (ne_of_gt hlt), if_neg (ne_of_gt hlt)]
    have hds : 0 < mx - mn := sub_pos.mpr hlt
    exact clamp01_mono ((div_le_div_iff_of_pos_right hds).mpr (by linarith))

/-! ### Claim 6 -/

theorem glFold_nonneg (l : List ℚ) : ∀ a b : ℚ, 0 ≤ a → 0 ≤ b →
    0 ≤ (List.foldl glStep (a, b) l).1 ∧ 0 ≤ (List.foldl glStep (a, b) l).2 := by
  induction l with
  | nil => intro a b ha hb; exact ⟨ha, hb⟩
  | cons c t ih =>
    intro a b ha hb
    rw [List.foldl_cons]
    unfold glStep
    split_ifs with hc
    · exact ih _ _ (by linarith) hb
    · exact ih _ _ ha (by linarith [not_lt.mp hc])

theorem glFold_pos_snd (l : List ℚ) (hl : ∀ c ∈ l, 0 < c) : ∀ a b : ℚ,
    (List.foldl glStep (a, b) l).2 = b := by
  induction l with
  | nil => intro a b; rfl
  | cons c t ih =>
    intro a b
    rw [List.foldl_cons]
    unfold glStep
    rw [if_pos (hl c (List.mem_cons_self c t))]
    exact ih (fun x hx => hl x (List.mem_cons_of_mem c hx)) _ _

/-- Adjacent differences taken against the tail of a strictly increasing list
are positive. -/
theorem chain'_sub_pos : ∀ w : List ℚ, List.Chain' (· < ·) w →
    ∀ c ∈ List.zipWith (fun a b => a - b) w.tail w, 0 < c := by
  intro w
  induction w with
  | nil =>
    intro _ c hc
    simp at hc
  | cons a t ih =>
    intro h c hc
    cases t with
    | nil => simp at hc
    | cons b u =>
      rw [show (a :: b :: u).tail = b :: u from rfl, List.zipWith_cons_cons] at hc
      rcases List.mem_cons.mp hc with hc1 | hc2
      · rw [hc1]
        exact sub_pos.mpr (List.chain'_cons.mp h).1
      · exact ih (List.chain'_cons.mp h).2 c hc2

theorem calculateRSI_mem (prices : List ℚ) :
    0 ≤ calculateRSI prices 14 ∧ calculateRSI prices 14 ≤ 100 := by
  unfold calculateRSI
  split_ifs with h1 h2
  · norm_num
  · norm_num
  · have hg : 0 ≤ (gainLoss (rsiChanges prices 14)).1 :=
      (glFold_nonneg (rsiChanges prices 14) 0 0 le_rfl le_rfl).1
    have hl : 0 ≤ (gainLoss (rsiChanges prices 14)).2 :=
      (glFold_nonneg (rsiChanges prices 14) 0 0 le_rfl le_rfl).2
    have hlq : 0 ≤ (gainLoss (rsiChanges prices 14)).2 / ((14 : ℕ) : ℚ) :=
      div_nonneg hl (by norm_num)
    have hlpos : 0 < (gainLoss (rsiChanges prices 14)).2 / ((14 : ℕ) : ℚ) :=
      lt_of_le_of_ne hlq (Ne.symm h2)
    have hrs : 0 ≤ ((gainLoss (rsiChanges prices 14)).1 / ((14 : ℕ) : ℚ))
        / ((gainLoss (rsiChanges prices 14)).2 / ((14 : ℕ) : ℚ)) :=
      div_nonneg (div_nonneg hg (by norm_num)) hlq
    have hub : (100 : ℚ) / (1 + ((gainLoss (rsiChanges prices 14)).1 / ((14 : ℕ) : ℚ))
        / ((gainLoss (rsiChanges prices 14)).2 / ((14 : ℕ) : ℚ))) ≤ 100 :=
      div_le_self (by norm_num) (by linarith)
    have hlb : (0 : ℚ) ≤ 100 / (1 + ((gainLoss (rsiChanges prices 14)).1 / ((14 : ℕ) : ℚ))
        / ((gainLoss (rsiChanges prices 14)).2 / ((14 : ℕ) : ℚ))) :=
      div_nonneg (by norm_num) (by linarith)
    constructor <;> linarith

/-- Claim C6: RSI(14) is always in `[0,100]`; series shorter than 15 points
yield the neutral 50; a zero average loss over the trailing window yields 100
— in particular every strictly increasing series of length ≥ 15 yields 100 —
and otherwise RSI is `100 - 100/(1 + avgGain/avgLoss)` with the gains/losses
accumulated from the trailing 14 changes and divided by the period. -/
theorem claim6_rsi (prices : List ℚ) :
    (0 ≤ calculateRSI prices 14 ∧ calculateRSI prices 14 ≤ 100)
    ∧ (prices.length < 15 → calculateRSI prices 14 = 50)
    ∧ (15 ≤ prices.length → (gainLoss (rsiChanges prices 14)).2 / ((14 : ℕ) : ℚ) = 0 →
        calculateRSI prices 14 = 100)
    ∧ (List.Chain' (· < ·) prices → 15 ≤ prices.length → calculateRSI prices 14 = 100)
    ∧ (15 ≤ prices.length → (gainLoss (rsiChanges prices 14)).2 / ((14 : ℕ) : ℚ) ≠ 0 →
        calculateRSI prices 14
          = 100 - 100 / (1 + ((gainLoss (rsiChanges prices 14)).1 / ((14 : ℕ) : ℚ))
            / ((gainLoss (rsiChanges prices 14)).2 / ((14 : ℕ) : ℚ)))) := by
  have hzero : ∀ hlen : 15 ≤ prices.length,
      (gainLoss (rsiChanges prices 14)).2 / ((14 : ℕ) : ℚ) = 0 →
      calculateRSI prices 14 = 100 := by
    intro hlen hz
    unfold calculateRSI
    rw [if_neg (by omega), if_pos hz]
  refine ⟨calculateRSI_mem prices, ?_, hzero, ?_, ?_⟩
  · intro h
    unfold calculateRSI
    rw [if_pos (by omega)]
  · intro hchain hlen
    have hwin : List.Chain' (· < ·) (prices.drop (prices.length - (14 + 1))) :=
      hchain.drop _
    have hpos : ∀ c ∈ rsiChanges prices 14, 0 < c :=
      chain'_sub_pos (prices.drop (prices.length - (14 + 1))) hwin
    have hsnd : (gainLoss (rsiChanges prices 14)).2 = 0 :=
      glFold_pos_snd (rsiChanges prices 14) hpos 0 0
    exact hzero hlen (by rw [hsnd, zero_div])
  · intro hlen hnz
    unfold calculateRSI
    rw [if_neg (by omega), if_neg hnz]

/-- Witness for claim C6: a strictly increasing 15-point series scores 100, a
2-point series scores the neutral 50. -/
theorem claim6_witness :
    calculateRSI [1, 2, 3, 4, 5, 6, 7, 8, 9, 10, 11, 12, 13, 14, 15] 14 = 100
    ∧ calculateRSI [100, 90] 14 = 50 :=
  ⟨(claim6_rsi _).2.2.2.1 (by norm_num [List.chain'_cons]) (by norm_num),
   (claim6_rsi _).2.1 (by norm_num)⟩

/-! ### Claim 4 -/

theorem sentStep_eq (s : ℚ × ℚ) (r : RecPeriod) :
    sentStep s r
      = (s.1 + (2 * (r.strongBuy : ℚ) + (r.buy : ℚ) - (r.sell : ℚ) - 2 * (r.strongSell : ℚ)),
         s.2 + ((r.strongBuy : ℚ) + (r.buy : ℚ) + (r.sell : ℚ) + (r.strongSell : ℚ))) := by
  unfold sentStep
  by_cases h1 : r.strongBuy = 0 <;> by_cases h2 : r.buy = 0 <;>
    by_cases h3 : r.sell = 0 <;> by_cases h4 : r.strongSell = 0 <;>
    simp only [h1, h2, h3, h4, ne_eq, not_true_eq_false, not_false_eq_true, if_true, if_false,
      ite_true, ite_false, Nat.cast_zero, ite_not, Prod.ext_iff] <;>
    refine ⟨?_, ?_⟩ <;> dsimp only <;> push_cast <;> ring

theorem sentFold (recs : List RecPeriod) : ∀ a b : ℚ,
    List.foldl sentStep (a, b) recs = (a + sentScore recs, b + sentCount recs) := by
  induction recs with
  | nil =>
    intro a b
    simp [sentScore, sentCount]
  | cons r t ih =>
    intro a b
    rw [List.foldl_cons, sentStep_eq, ih]
    simp only [sentScore, sentCount, List.map_cons, List.sum_cons, Prod.mk.injEq]
    constructor <;> ring

/-- When the accumulated count is non-zero, the sentiment score is the clamped
affine image of `score/(count·2)`. -/
theorem sentForm (recs : List RecPeriod) (h : sentCount recs ≠ 0) :
    enhancedSentimentScore recs
      = clamp01 ((sentScore recs / (sentCount recs * 2) + 1) / 2) := by
  have hfold : List.foldl sentStep (0, 0) recs = (sentScore recs, sentCount recs) := by
    rw [sentFold]
    simp
  have hlen : ¬ recs.length = 0 := by
    intro hl
    rw [List.length_eq_zero] at hl
    subst hl
    exact h rfl
  unfold enhancedSentimentScore
  rw [if_neg hlen, hfold]
  exact if_neg h

/-- Claim C4: the sentiment aggregator returns 0.5 on the empty list; 1.0 on a
single strongBuy-only period; 0.0 on a single strongSell-only period; its
accumulation adds +2/+1 per strongBuy unit, +1/+1 per buy, −1/+1 per sell,
−2/+1 per strongSell (hold ignored); and when the count is non-zero the
result is `clamp01((score/(count·2) + 1)/2)`. -/
theorem claim4_sentiment :
    enhancedSentimentScore [] = 1/2
    ∧ (∀ n : ℕ, 0 < n → enhancedSentimentScore [⟨n, 0, 0, 0, 0⟩] = 1)
    ∧ (∀ n : ℕ, 0 < n → enhancedSentimentScore [⟨0, 0, 0, 0, n⟩] = 0)
    ∧ (∀ (recs : List RecPeriod) (a b : ℚ),
        List.foldl sentStep (a, b) recs = (a + sentScore recs, b + sentCount recs))
    ∧ (∀ recs : List RecPeriod, sentCount recs ≠ 0 →
        enhancedSentimentScore recs
          = clamp01 ((sentScore recs / (sentCount recs * 2) + 1) / 2)) := by
  refine ⟨rfl, ?_, ?_, sentFold, sentForm⟩
  · intro n hn
    have hcast : ((n : ℚ)) ≠ 0 := Nat.cast_ne_zero.mpr hn.ne'
    have hsc : sentScore [⟨n, 0, 0, 0, 0⟩] = 2 * (n : ℚ) := by
      simp [sentScore]
    have hct : sentCount [⟨n, 0, 0, 0, 0⟩] = (n : ℚ) := by
      simp [sentCount]
    rw [sentForm _ (by rw [hct]; exact hcast), hsc, hct]
    rw [show 2 * (n : ℚ) / ((n : ℚ) * 2) = 1 from by
      rw [mul_comm]
      exact div_self (by positivity)]
    norm_num [clamp01, jsMax, jsMin]
  · intro n hn
    have hcast : ((n : ℚ)) ≠ 0 := Nat.cast_ne_zero.mpr hn.ne'
    have hsc : sentScore [⟨0, 0, 0, 0, n⟩] = -(2 * (n : ℚ)) := by
      simp [sentScore]
    have hct : sentCount [⟨0, 0, 0, 0, n⟩] = (n : ℚ) := by
      simp [sentCount]
    rw [sentForm _ (by rw [hct]; exact hcast), hsc, hct]
    rw [show -(2 * (n : ℚ)) / ((n : ℚ) * 2) = -1 from by
      rw [mul_comm, neg_div]
      rw [div_self (by positivity)]]
    norm_num [clamp01, jsMax, jsMin]

/-- Witness for claim C4 at concrete recommendation lists. -/
theorem claim4_witness :
    enhancedSentimentScore [⟨3, 0, 0, 0, 0⟩] = 1
    ∧ enhancedSentimentScore [⟨0, 0, 0, 0, 4⟩] = 0
    ∧ enhancedSentimentScore [⟨1, 2, 5, 3, 4⟩]
        = clamp01 ((sentScore [⟨1, 2, 5, 3, 4⟩] / (sentCount [⟨1, 2, 5, 3, 4⟩] * 2) + 1) / 2) :=
  ⟨claim4_sentiment.2.1 3 (by norm_num), claim4_sentiment.2.2.1 4 (by norm_num),
   claim4_sentiment.2.2.2.2 [⟨1, 2, 5, 3, 4⟩] (by norm_num [sentCount])⟩

/-- Witness for the amended claim C5 at concrete inputs. -/
theorem claim5_witness :
    normalize 5 2 2 = 1/2
    ∧ normalize 7 0 10 = clamp01 ((7 - 0) / (10 - 0))
    ∧ normalize 3 0 10 ≤ normalize 4 0 10 :=
  ⟨(claim5_amended 5 2 2).1 rfl,
   (claim5_amended 7 0 10).2.1 (by norm_num),
   (claim5_amended 3 0 10).2.2.2.2 4 (by norm_num) (by norm_num)⟩

/-! ### Claim 7 -/

theorem jsRound_mem {q : ℚ} (h0 : 0 ≤ q) (h1 : q ≤ 50) :
    0 ≤ jsRound q ∧ jsRound q ≤ 50 := by
  unfold jsRound
  constructor
  · apply Int.le_floor.mpr
    push_cast
    linarith
  · by_contra hcon
    push_neg at hcon
    have h51 : ((51 : ℤ) : ℚ) ≤ q + 1/2 :=
      le_trans (by exact_mod_cast hcon) (Int.floor_le _)
    norm_num at h51
    linarith

theorem analyze_score_mem (jsSqrt : ℚ → ℚ) (d : StockData) :
    0 ≤ (analyze jsSqrt d).score ∧ (analyze jsSqrt d).score ≤ 1 := by
  rw [score_formula]
  exact ⟨clamp01_nonneg _, clamp01_le_one _⟩

/-- Claim C7: the final score is the clamp to `[0,1]` of
`raw·1.2 + 0.1` where `raw` is the fixed 0.30/0.25/0.15/0.15/−0.15
combination of the five sub-scores, and the star rating is the half-up round
of `score·5` to one decimal, hence of the form `n/10` with `n ≤ 50`, so it
always lies in `[0,5]` in 0.1 increments. -/
theorem claim7_composite (jsSqrt : ℚ → ℚ) (d : StockData) :
    (analyze jsSqrt d).score = clamp01
      (((30/100) * (analyze jsSqrt d).valComp + (25/100) * (analyze jsSqrt d).growthComp
        + (15/100) * (analyze jsSqrt d).momentumComp
        + (15/100) * (analyze jsSqrt d).sentimentComp
        - (15/100) * (analyze jsSqrt d).riskComp) * (12/10) + 1/10)
    ∧ (analyze jsSqrt d).stars = toStars (analyze jsSqrt d).score
    ∧ (analyze jsSqrt d).stars
        = (jsRound ((analyze jsSqrt d).score * 5 * 10) : ℚ) / 10
    ∧ (0 ≤ (analyze jsSqrt d).stars ∧ (analyze jsSqrt d).stars ≤ 5)
    ∧ ∃ n : ℕ, n ≤ 50 ∧ (analyze jsSqrt d).stars = (n : ℚ) / 10 := by
  have hsc := analyze_score_mem jsSqrt d
  have hclamp : clamp01 (analyze jsSqrt d).score = (analyze jsSqrt d).score :=
    clamp01_eq_self hsc.1 hsc.2
  have hstars : (analyze jsSqrt d).stars
      = (jsRound ((analyze jsSqrt d).score * 5 * 10) : ℚ) / 10 := by
    show toStars (analyze jsSqrt d).score
      = (jsRound ((analyze jsSqrt d).score * 5 * 10) : ℚ) / 10
    unfold toStars
    rw [hclamp]
  have hq0 : 0 ≤ (analyze jsSqrt d).score * 5 * 10 := by nlinarith [hsc.1]
  have hq1 : (analyze jsSqrt d).score * 5 * 10 ≤ 50 := by nlinarith [hsc.2]
  have hj := jsRound_mem hq0 hq1
  refine ⟨score_formula jsSqrt d, rfl, hstars, ⟨?_, ?_⟩,
    (jsRound ((analyze jsSqrt d).score * 5 * 10)).toNat, ?_, ?_⟩
  · rw [hstars]
    apply div_nonneg _ (by norm_num)
    exact_mod_cast hj.1
  · rw [hstars]
    rw [div_le_iff₀ (by norm_num : (0:ℚ) < 10)]
    exact_mod_cast le_trans hj.2 (by norm_num)
  · exact_mod_cast Int.toNat_le.mpr hj.2
  · rw [hstars]
    have hcast : (((jsRound ((analyze jsSqrt d).score * 5 * 10)).toNat : ℕ) : ℚ)
        = ((jsRound ((analyze jsSqrt d).score * 5 * 10) : ℤ) : ℚ) := by
      exact_mod_cast congrArg (fun z : ℤ => (z : ℚ)) (Int.toNat_of_nonneg hj.1)
    rw [hcast]

/-! ### Claim 8 -/

/-- Claim C8: confidence is exactly 50 plus the five data-availability
bonuses (+15 for ≥200 closes, +10 for ≥3 recommendation periods, +10 for
both P/E and P/B, +10 for earnings growth, +5 for a target price), capped at
95; hence it is an integer (a natural number by construction) between 50 and
95. -/
theorem claim8_confidence (jsSqrt : ℚ → ℚ) (d : StockData) :
    (analyze jsSqrt d).confidence = min 95 (50
      + (if 200 ≤ d.closes.length then 15 else 0)
      + (if 3 ≤ d.recommendations.length then 10 else 0)
      + (if ((extract d).pe).isSome && ((extract d).pb).isSome then 10 else 0)
      + (if ((extract d).earningsGrowth).isSome then 10 else 0)
      + (if ((extract d).targetMeanPrice).isSome then 5 else 0))
    ∧ 50 ≤ (analyze jsSqrt d).confidence
    ∧ (analyze jsSqrt d).confidence ≤ 95 := by
  refine ⟨rfl, ?_, ?_⟩
  · show 50 ≤ min 95 (50
      + (if 200 ≤ d.closes.length then 15 else 0)
      + (if 3 ≤ d.recommendations.length then 10 else 0)
      + (if ((extract d).pe).isSome && ((extract d).pb).isSome then 10 else 0)
      + (if ((extract d).earningsGrowth).isSome then 10 else 0)
      + (if ((extract d).targetMeanPrice).isSome then 5 else 0))
    refine le_min (by norm_num) ?_
    split_ifs <;> omega
  · show min 95 (50
      + (if 200 ≤ d.closes.length then 15 else 0)
      + (if 3 ≤ d.recommendations.length then 10 else 0)
      + (if ((extract d).pe).isSome && ((extract d).pb).isSome then 10 else 0)
      + (if ((extract d).earningsGrowth).isSome then 10 else 0)
      + (if ((extract d).targetMeanPrice).isSome then 5 else 0)) ≤ 95
    exact min_le_left _ _

/-! ### Claim 9 -/

/-- `d` with its `statistics.trailingPE` source field replaced. -/
def withStatsTrailingPE (d : StockData) (v : Option ℚ) : StockData :=
  ⟨v, d.quoteTrailingPE, d.statsForwardPE, d.summForwardPE, d.statsPriceToBook,
   d.quotePriceToBook, d.quotePriceToSales, d.statsBeta, d.summBeta,
   d.quoteRegularMarketPrice, d.dataPrice, d.finReturnOnEquity, d.finDebtToEquity,
   d.finFreeCashflow, d.finEarningsGrowth, d.finRevenueGrowth, d.finTargetMeanPrice,
   d.recommendations, d.closes⟩

/-- `d` with its `statistics.priceToBook` source field replaced. -/
def withStatsPriceToBook (d : StockData) (v : Option ℚ) : StockData :=
  ⟨d.statsTrailingPE, d.quoteTrailingPE, d.statsForwardPE, d.summForwardPE, v,
   d.quotePriceToBook, d.quotePriceToSales, d.statsBeta, d.summBeta,
   d.quoteRegularMarketPrice, d.dataPrice, d.finReturnOnEquity, d.finDebtToEquity,
   d.finFreeCashflow, d.finEarningsGrowth, d.finRevenueGrowth, d.finTargetMeanPrice,
   d.recommendations, d.closes⟩

/-- `d` with its `financialData.earningsGrowth` field replaced. -/
def withEarningsGrowth (d : StockData) (v : Option ℚ) : StockData :=
  ⟨d.statsTrailingPE, d.quoteTrailingPE, d.statsForwardPE, d.summForwardPE,
   d.statsPriceToBook, d.quotePriceToBook, d.quotePriceToSales, d.statsBeta, d.summBeta,
   d.quoteRegularMarketPrice, d.dataPrice, d.finReturnOnEquity, d.finDebtToEquity,
   d.finFreeCashflow, v, d.finRevenueGrowth, d.finTargetMeanPrice,
   d.recommendations, d.closes⟩

/-- `d` with its `financialData.revenueGrowth` field replaced. -/
def withRevenueGrowth (d : StockData) (v : Option ℚ) : StockData :=
  ⟨d.statsTrailingPE, d.quoteTrailingPE, d.statsForwardPE, d.summForwardPE,
   d.statsPriceToBook, d.quotePriceToBook, d.quotePriceToSales, d.statsBeta, d.summBeta,
   d.quoteRegularMarketPrice, d.dataPrice, d.finReturnOnEquity, d.finDebtToEquity,
   d.finFreeCashflow, d.finEarningsGrowth, v, d.finTargetMeanPrice,
   d.recommendations, d.closes⟩

/-- `d` with its `statistics.beta` source field replaced. -/
def withStatsBeta (d : StockData) (v : Option ℚ) : StockData :=
  ⟨d.statsTrailingPE, d.quoteTrailingPE, d.statsForwardPE, d.summForwardPE,
   d.statsPriceToBook, d.quotePriceToBook, d.quotePriceToSales, v, d.summBeta,
   d.quoteRegularMarketPrice, d.dataPrice, d.finReturnOnEquity, d.finDebtToEquity,
   d.finFreeCashflow, d.finEarningsGrowth, d.finRevenueGrowth, d.finTargetMeanPrice,
   d.recommendations, d.closes⟩

/-- Claim C9: because the `||`-coalescing extraction treats a metric value of
exactly 0 as falsy, a zero fundamental is scored identically to an absent
one: replacing a raw source field holding `some 0` by `none` yields the very
same CompositeRating (shown for trailing P/E, P/B, earnings growth, revenue
growth and beta), and when both beta sources are absent or zero the default
beta 1 is used. -/
theorem claim9_zero_as_missing (jsSqrt : ℚ → ℚ) (d : StockData) :
    analyze jsSqrt (withStatsTrailingPE d (some 0))
      = analyze jsSqrt (withStatsTrailingPE d none)
    ∧ analyze jsSqrt (withStatsPriceToBook d (some 0))
      = analyze jsSqrt (withStatsPriceToBook d none)
    ∧ analyze jsSqrt (withEarningsGrowth d (some 0))
      = analyze jsSqrt (withEarningsGrowth d none)
    ∧ analyze jsSqrt (withRevenueGrowth d (some 0))
      = analyze jsSqrt (withRevenueGrowth d none)
    ∧ analyze jsSqrt (withStatsBeta d (some 0)) = analyze jsSqrt (withStatsBeta d none)
    ∧ ((d.statsBeta = none ∨ d.statsBeta = some 0) →
        (d.summBeta = none ∨ d.summBeta = some 0) → (extract d).beta = 1) := by
  refine ⟨rfl, rfl, rfl, rfl, rfl, ?_⟩
  rintro (h1 | h1) (h2 | h2) <;> simp [extract, jsOrVal, h1, h2]

/-- Witness for claim C9 at the concrete empty payload. -/
theorem claim9_witness :
    (extract emptyInput).beta = 1
    ∧ analyze (fun _ => 0) (withStatsTrailingPE emptyInput (some 0))
        = analyze (fun _ => 0) (withStatsTrailingPE emptyInput none) :=
  ⟨(claim9_zero_as_missing (fun _ => 0) emptyInput).2.2.2.2.2 (Or.inl rfl) (Or.inl rfl),
   (claim9_zero_as_missing (fun _ => 0) emptyInput).1⟩

/-! ### Claim 10 -/

theorem momentum12m_whole (closes : List ℚ) (h2 : closes.length < 252) :
    momentum12m closes
      = (closes.getD (closes.length - 1) 0 - closes.getD 0 0) / closes.getD 0 0 := by
  simp only [momentum12m]
  rw [if_neg (by omega)]

theorem momentum12m_trailing (closes : List ℚ) (h2 : 252 ≤ closes.length) :
    momentum12m closes
      = (closes.getD (closes.length - 1) 0 - closes.getD (closes.length - 252) 0)
        / closes.getD (closes.length - 252) 0 := by
  simp only [momentum12m]
  rw [if_pos h2]

theorem technicals_momentum12m (jsSqrt : ℚ → ℚ) (closes : List ℚ) (h : 30 < closes.length) :
    (technicals jsSqrt closes).momentum12m = momentum12m closes := by
  unfold technicals
  rw [if_neg (by omega)]

theorem technicals_momentum6m (jsSqrt : ℚ → ℚ) (closes : List ℚ) (h : 30 < closes.length) :
    (technicals jsSqrt closes).momentum6m = momentum6m closes := by
  unfold technicals
  rw [if_neg (by omega)]

theorem technicals_momentum3m (jsSqrt : ℚ → ℚ) (closes : List ℚ) (h : 30 < closes.length) :
    (technicals jsSqrt closes).momentum3m = momentum3m closes := by
  unfold technicals
  rw [if_neg (by omega)]

/-- The raw projection percentage before target blending, as a function of
the already-computed sub-scores and the 12-month momentum. -/
def projBase (jsSqrt : ℚ → ℚ) (d : StockData) (m12 : ℚ) : ℚ :=
  m12 * (25/100) + ((analyze jsSqrt d).growthComp - 1/2) * (35/100)
    + ((analyze jsSqrt d).valComp - 1/2) * (30/100)
    + ((analyze jsSqrt d).sentimentComp - 1/2) * (10/100)

/-- The projected return of every rating is the half-up round of 100 times
the (possibly target-blended) projection built from the technical block's
12-month momentum and the rating's own sub-scores (definitional fact). -/
theorem projReturn_formula (jsSqrt : ℚ → ℚ) (d : StockData) :
    (analyze jsSqrt d).projReturn = jsRound
      ((if truthy ((extract d).targetMeanPrice) && truthy ((extract d).currentPrice) then
          projBase jsSqrt d (technicals jsSqrt d.closes).momentum12m * (6/10)
            + ((((extract d).targetMeanPrice).getD 0 - ((extract d).currentPrice).getD 0)
                / ((extract d).currentPrice).getD 0) * (4/10)
        else projBase jsSqrt d (technicals jsSqrt d.closes).momentum12m) * 100) := rfl

/-- Claim C10: for 31..251 closes the 12-month momentum is the whole-series
return `(last - first)/first` (not 0 and not absent); only with at least 252
closes is it the trailing-252-point return; the 6- and 3-month momenta stay 0
below 126 and 63 points; and on the 31..251 range the projected return is
computed from that whole-series return. -/
theorem claim10_momentum (jsSqrt : ℚ → ℚ) (closes : List ℚ) :
    (30 < closes.length → closes.length < 252 →
      (technicals jsSqrt closes).momentum12m
        = (closes.getD (closes.length - 1) 0 - closes.getD 0 0) / closes.getD 0 0)
    ∧ (30 < closes.length → 252 ≤ closes.length →
      (technicals jsSqrt closes).momentum12m
        = (closes.getD (closes.length - 1) 0 - closes.getD (closes.length - 252) 0)
          / closes.getD (closes.length - 252) 0)
    ∧ (30 < closes.length → closes.length < 126 →
      (technicals jsSqrt closes).momentum6m = 0)
    ∧ (30 < closes.length → closes.length < 63 →
      (technicals jsSqrt closes).momentum3m = 0)
    ∧ (∀ d : StockData, 30 < d.closes.length → d.closes.length < 252 →
      (analyze jsSqrt d).projReturn = jsRound
        ((if truthy ((extract d).targetMeanPrice) && truthy ((extract d).currentPrice) then
            projBase jsSqrt d
                ((d.closes.getD (d.closes.length - 1) 0 - d.closes.getD 0 0)
                  / d.closes.getD 0 0) * (6/10)
              + ((((extract d).targetMeanPrice).getD 0 - ((extract d).currentPrice).getD 0)
                  / ((extract d).currentPrice).getD 0) * (4/10)
          else projBase jsSqrt d
            ((d.closes.getD (d.closes.length - 1) 0 - d.closes.getD 0 0)
              / d.closes.getD 0 0)) * 100)) := by
  refine ⟨?_, ?_, ?_, ?_, ?_⟩
  · intro h1 h2
    rw [technicals_momentum12m jsSqrt closes h1, momentum12m_whole closes h2]
  · intro h1 h2
    rw [technicals_momentum12m jsSqrt closes h1, momentum12m_trailing closes h2]
  · intro h1 h2
    rw [technicals_momentum6m jsSqrt closes h1]
    simp only [momentum6m]
    rw [if_neg (by omega)]
  · intro h1 h2
    rw [technicals_momentum3m jsSqrt closes h1]
    simp only [momentum3m]
    rw [if_neg (by omega)]
  · intro d h1 h2
    rw [projReturn_formula jsSqrt d, technicals_momentum12m jsSqrt d.closes h1,
      momentum12m_whole d.closes h2]

theorem getD_replicate (n i : ℕ) (a : ℚ) (h : i < n) :
    (List.replicate n a).getD i 0 = a := by
  rw [List.getD_eq_getElem?_getD, List.getElem?_replicate, if_pos h]
  rfl

/-- The payload whose only data is a 40-point constant price series. -/
def closes40Input : StockData :=
  ⟨none, none, none, none, none, none, none, none, none, none, none, none, none, none, none,
   none, none, [], List.replicate 40 100⟩

/-- Witness for claim C10 on concrete constant series of 40 and 260 points. -/
theorem claim10_witness :
    (technicals (fun _ => 0) (List.replicate 40 (100:ℚ))).momentum12m = 0
    ∧ (technicals (fun _ => 0) (List.replicate 260 (100:ℚ))).momentum12m = 0
    ∧ (technicals (fun _ => 0) (List.replicate 40 (100:ℚ))).momentum6m = 0
    ∧ (technicals (fun _ => 0) (List.replicate 40 (100:ℚ))).momentum3m = 0
    ∧ (analyze (fun _ => 0) closes40Input).projReturn = 0 := by
  have hlen40 : (List.replicate 40 (100:ℚ)).length = 40 := List.length_replicate 40 100
  have hlen260 : (List.replicate 260 (100:ℚ)).length = 260 := List.length_replicate 260 100
  have hmain := claim10_momentum (fun _ => (0:ℚ)) (List.replicate 40 (100:ℚ))
  have hmain260 := claim10_momentum (fun _ => (0:ℚ)) (List.replicate 260 (100:ℚ))
  refine ⟨?_, ?_, ?_, ?_, ?_⟩
  · rw [hmain.1 (by omega) (by omega), hlen40]
    rw [getD_replicate 40 (40 - 1) 100 (by omega), getD_replicate 40 0 100 (by omega)]
    norm_num
  · rw [hmain260.2.1 (by omega) (by omega), hlen260]
    rw [getD_replicate 260 (260 - 1) 100 (by omega),
      getD_replicate 260 (260 - 252) 100 (by omega)]
    norm_num
  · exact hmain.2.2.1 (by omega) (by omega)
  · exact hmain.2.2.2.1 (by omega) (by omega)
  · have h5 := (claim10_momentum (fun _ => (0:ℚ)) []).2.2.2.2 closes40Input
      (by rw [show closes40Input.closes = List.replicate 40 (100:ℚ) from rfl, hlen40]; omega)
      (by rw [show closes40Input.closes = List.replicate 40 (100:ℚ) from rfl, hlen40]; omega)
    rw [h5]
    rw [show truthy ((extract closes40Input).targetMeanPrice) = false from rfl]
    simp only [Bool.false_and, Bool.false_eq_true, if_false]
    simp only [projBase]
    rw [show (analyze (fun _ => (0:ℚ)) closes40Input).growthComp = 1/2 from rfl]
    rw [show (analyze (fun _ => (0:ℚ)) closes40Input).valComp = 1/2 from rfl]
    rw [show (analyze (fun _ => (0:ℚ)) closes40Input).sentimentComp = 1/2 from rfl]
    rw [show closes40Input.closes = List.replicate 40 (100:ℚ) from rfl, hlen40]
    rw [getD_replicate 40 (40 - 1) 100 (by omega), getD_replicate 40 0 100 (by omega)]
    rw [show ((100:ℚ) - 100) / 100 * (25/100) + ((1:ℚ)/2 - 1/2) * (35/100)
      + ((1:ℚ)/2 - 1/2) * (30/100) + ((1:ℚ)/2 - 1/2) * (10/100) = 0 from by norm_num]
    rw [show ((0:ℚ) * 100) = 0 from by norm_num]
    unfold jsRound
    rw [show ((0:ℚ) + 1/2) = 1/2 from by norm_num]
    rw [show ⌊(1/2 : ℚ)⌋ = 0 from Int.floor_eq_iff.mpr (by norm_num)]

end ASRE
